import Mathlib

/-!
Shallow embedding of the IRC protocol core of the bot (src/src/irc.c), with
theorems checking the natural-language specification against that code.

The C code operates on a heap-allocated `struct irc_type` holding the socket,
the partially-read line buffer, fixed-capacity identity fields (nick, user,
address, port), a fixed-capacity array of joined channel names with its count
(`channels[MAXCHANS][CHANLEN]`, `channels_set`), a `connected` flag, and a
pipe used as a one-shot rendezvous channel.  Here the protocol-relevant state
is a structure over unbounded strings and lists; the fixed buffer capacities
(MAXCHANS, CHANLEN, NICKLEN, IRCLEN) are compile-time constants defined in a
header that is not part of the given sources, so every operation that uses one
takes it as an explicit parameter.  Outbound network traffic is modelled as a
list of framed commands returned by each operation, in emission order.
-/

namespace IrcBot

/-- One outbound IRC command as assembled by `_irc_command` in irc.c:
a command type, a target, and an optional trailing text.  When the text is
absent the `:` separator is omitted (see the wrapper-macro comment in irc.c). -/
structure Cmd where
  type : String
  target : String
  text : Option String
deriving Repr, DecidableEq

/-- Wire rendering of a command, following `_irc_command`:
`"<TYPE> <target> :<text>\r\n"` when text is present, else
`"<TYPE> <target>\r\n"`. -/
def renderCmd (c : Cmd) : String :=
  match c.text with
  | some m => c.type ++ " " ++ c.target ++ " :" ++ m ++ "\x0d\x0a"
  | none => c.type ++ " " ++ c.target ++ "\x0d\x0a"

/-- Wrapper macro `irc_nick_command`: `NICK <target>` with no trailing text. -/
def irc_nick_command (target : String) : Cmd := ⟨"NICK", target, none⟩

/-- Wrapper macro `irc_channel_command`: `JOIN <target>` with no trailing text. -/
def irc_channel_command (target : String) : Cmd := ⟨"JOIN", target, none⟩

/-- Wrapper macro `irc_ping_command`: `PONG <target>` with no trailing text. -/
def irc_ping_command (target : String) : Cmd := ⟨"PONG", target, none⟩

/-- Modelled from the spec: `send_message` (declared in a header not under
src/) frames a reply as `PRIVMSG <target> :<text>` — "Outbound command
framing: `<TYPE> <target> :<text>` … replies via PRIVMSG/NOTICE". -/
def send_message (target text : String) : Cmd := ⟨"PRIVMSG", target, some text⟩

/-- Modelled from the spec: `send_notice` (declared in a header not under
src/) frames a reply as `NOTICE <target> :<text>`. -/
def send_notice (target text : String) : Cmd := ⟨"NOTICE", target, some text⟩

/-- The protocol-relevant mutable state of `struct irc_type`: the current
nick, the live prefix of the joined-channel array (`channels[0 ..
channels_set-1]`, in storage order), and the `isConnected` flag.  The socket,
pipe descriptors, line buffer and the address/port/user identity fields play
no part in the claims below. -/
structure Irc where
  nick : String
  channels : List String
  isConnected : Bool
deriving Repr, DecidableEq

/-- Model of `strncpy(dst, src, n)` on an `n`-byte buffer: at most the first `n`
characters of the source are stored.  (Defined over the character list so
that it evaluates inside the kernel; the position-based `String.take` of the
standard library does not.) -/
def strTake (s : String) (n : Nat) : String := String.mk (s.data.take n)

/-- The string starting `n` characters into `s` (pointer arithmetic such as
`line + 5` in the C code). -/
def strDrop (s : String) (n : Nat) : String := String.mk (s.data.drop n)

/-- Model of the test `strchr(s, c) != NULL`: whether `c` occurs in `s`. -/
def strContains (s : String) (c : Char) : Bool := s.data.any (fun x => x == c)

/-- The prefix of `s` before the first character failing `p`. -/
def strTakeWhile (p : Char → Bool) (s : String) : String :=
  String.mk (s.data.takeWhile p)

/-- The remainder of `s` after its longest prefix of characters satisfying `p`. -/
def strDropWhile (p : Char → Bool) (s : String) : String :=
  String.mk (s.data.dropWhile p)

/-- Modelled from the spec: helper `null_terminate(s, c)` (its definition is
in a helper file not under src/).  Per its uses and the spec ("sender is
truncated at `!`, keeping only the nick"), it truncates `s` at the first
occurrence of `c` and fails (returns NULL) when `c` does not occur. -/
def null_terminate (s : String) (c : Char) : Option String :=
  if strContains s c then some (strTakeWhile (fun x => x != c) s) else none

/-- Modelled from the spec: helper `starts_with(s, prefix)` (defined in a
helper file not under src/): whether `prefix` is a prefix of `s`. -/
def starts_with (s pre : String) : Bool := pre.data.isPrefixOf s.data

/-- Value of a digit string, most significant first (helper for `atoi`). -/
def digitsVal (cs : List Char) : Nat :=
  cs.foldl (fun a c => 10 * a + (c.toNat - 48)) 0

/-- C `atoi`: skip leading whitespace, accept an optional sign, then read the
longest digit prefix; everything after the first non-digit is ignored and an
empty digit prefix yields 0. -/
def atoi (s : String) : Int :=
  let cs := s.data.dropWhile (fun c => c == ' ' || c == '\t')
  match cs with
  | '-' :: rest => - (digitsVal (rest.takeWhile Char.isDigit) : Int)
  | '+' :: rest => (digitsVal (rest.takeWhile Char.isDigit) : Int)
  | _ => (digitsVal (cs.takeWhile Char.isDigit) : Int)

/-- One `strtok(…, " ")` step on the remainder string: skip leading spaces;
if nothing is left there is no token (NULL); otherwise the token runs up to
the next space, and the remainder continues right after that single
terminating delimiter. -/
def nextTok (s : String) : Option (String × String) :=
  let t := strDropWhile (fun c => c == ' ') s
  if t = "" then none
  else
    let tok := strTakeWhile (fun c => c != ' ') t
    some (tok, strDrop t (tok.length + 1))

/-- Function `join_channel(server, channel)` (irc.c lines 100–122).
With a channel given: if the set already holds MAXCHANS entries, log and
return −1 without touching state or the network; otherwise store the name
(truncated to the CHANLEN-byte slot by `strncpy`) at index `channels_set` and
bump the count, and send a JOIN for the stored name only when already
connected.  Return 1.
With no channel (NULL): when connected, send a JOIN for every recorded
channel in storage order and return their number; when not connected, send
nothing and return 0. -/
def join_channel (MAXCHANS CHANLEN : Nat) (s : Irc) (channel : Option String) :
    Irc × List Cmd × Int :=
  match channel with
  | some ch =>
    if s.channels.length = MAXCHANS then (s, [], -1)
    else
      let stored := strTake ch CHANLEN
      let s1 : Irc := { s with channels := s.channels ++ [stored] }
      (s1, if s.isConnected then [irc_channel_command stored] else [], 1)
  | none =>
    if s.isConnected then
      (s, s.channels.map irc_channel_command, (s.channels.length : Int))
    else (s, [], 0)

/-- Function `set_nick(server, nick)` (irc.c lines 82–87): `strncpy` the argument into
the NICKLEN-byte nick field (truncating an over-long input) and send the NICK
registration command with the stored nick.  (When the input fills the buffer
completely, `strncpy` leaves it without a terminator — a latent defect that
none of the claims exercises; the model keeps the first NICKLEN characters.) -/
def set_nick (NICKLEN : Nat) (s : Irc) (nick : String) : Irc × Cmd :=
  let n := strTake nick NICKLEN
  ({ s with nick := n }, irc_nick_command n)

/-- Numeric reply code 433, `ERR_NICKNAMEINUSE` (the `NICKNAMEINUSE` constant
comes from a header not under src/; 433 is the standard IRC value the spec "nickname-in-use" code denotes). -/
def NICKNAMEINUSE : Int := 433

/-- Numeric reply code 376, `RPL_ENDOFMOTD` (the `ENDOFMOTD` constant comes
from a header not under src/; 376 is the standard IRC value the spec
"end-of-MOTD" code denotes). -/
def ENDOFMOTD : Int := 376

/-- Function `numeric_reply(server, reply)` (irc.c lines 185–198).
On NICKNAMEINUSE: `strcat(server->nick, "_")` — an unbounded append — then
`set_nick(server, server->nick)`; since the source and
destination are the same buffer it leaves the contents unchanged, so the
model appends without truncation, and the NICK command carries the grown
nick.  On ENDOFMOTD: set `isConnected` and replay `join_channel(server,
NULL)`.  Every other code is ignored. -/
def numeric_reply (MAXCHANS CHANLEN : Nat) (s : Irc) (reply : Int) :
    Irc × List Cmd :=
  if reply = NICKNAMEINUSE then
    let grown := s.nick ++ "_"
    ({ s with nick := grown }, [irc_nick_command grown])
  else if reply = ENDOFMOTD then
    let s1 : Irc := { s with isConnected := true }
    let r := join_channel MAXCHANS CHANLEN s1 none
    (r.1, r.2.1)
  else (s, [])

/-- Where `parse_irc_line` sends a complete inbound line after its immediate
outputs: answered as a PING (no generic parsing, no dispatch), dropped for a
missing token, routed to `numeric_reply`, or looked up in the server-command
registry with the parsed sender/command/payload. -/
inductive Route where
  | pong (token : String)
  | dropped
  | numeric (code : Int)
  | lookup (sender command message : String)
deriving Repr, DecidableEq

/-- Function `parse_irc_line` (irc.c lines 124–183) on one complete line (the
socket-read and partial-line bookkeeping of lines 132–143 are transport, not
parsing, and carry no protocol state used by the claims).
A line that starts with `PING` is answered at once with
`irc_ping_command(server, line + 5)` — a PONG carrying the rest of the line
past `"PING "` — and the function returns without any further parsing or
dispatch.  Otherwise `strtok` extracts the sender (first token after the
leading `:` byte), the command (second token) and the payload (the whole
remainder); if any of the three is missing the line is silently dropped.
The command is then run through `atoi`: a nonzero result routes to
`numeric_reply`, a zero result goes to the command-name lookup. -/
def parse_irc_line (line : String) : List Cmd × Route :=
  if starts_with line "PING" then
    ([irc_ping_command (strDrop line 5)], Route.pong (strDrop line 5))
  else
    match nextTok (strDrop line 1) with
    | none => ([], Route.dropped)
    | some (sender, r1) =>
      match nextTok r1 with
      | none => ([], Route.dropped)
      | some (command, r2) =>
        if r2 = "" then ([], Route.dropped)
        else
          let reply := atoi command
          if reply = 0 then ([], Route.lookup sender command r2)
          else ([], Route.numeric reply)

/-- Stated from the words of the spec for comparison with the routing test of the code
(refinement direction of claim C7): a token "parses fully as a positive
integer" when it is nonempty, consists of digits only, and its value is
positive. -/
def parsesFullyAsPosInt (s : String) : Bool :=
  !s.data.isEmpty && s.data.all Char.isDigit && decide (0 < digitsVal s.data)

/-- The message fields of `Parsed_data` after `irc_privmsg` (irc.c lines
200–226) has resolved them: the sender with the hostmask stripped, the
reply target, the command token with its leading `:` skipped, and the
remaining parameters (NULL when nothing follows the command token). -/
structure PrivDispatch where
  sender : String
  target : String
  command : String
  message : Option String
deriving Repr, DecidableEq

/-- What `irc_privmsg` (irc.c lines 228–249) does with the resolved command:
fork a looked-up `!`-bot-command (whose output is produced in the child
process), answer a CTCP VERSION request with a NOTICE, or nothing. -/
inductive PrivAction where
  | botFork (name : String)
  | ctcpReply (out : Cmd)
  | ignored
deriving Repr, DecidableEq

/-- Function `irc_privmsg(server, pdata)` (irc.c lines 200–250).
Truncate the sender at `!` (a sender with no `!` drops the message); take the
first payload token as the target, and if it contains no `#` reply in
private: the target becomes the sender; take the next token as the command
and skip its leading `:`; the rest of the payload (possibly NULL) is the
parameters.  A command starting with `!` is looked up (registry membership is
external) and forked; a command starting with the CTCP byte 0x01 is answered
with a version NOTICE when it is a VERSION request; anything else is
ignored. -/
def irc_privmsg (sender message bot_version : String) :
    Option (PrivDispatch × PrivAction) :=
  match null_terminate sender '!' with
  | none => none
  | some snd =>
    match nextTok message with
    | none => none
    | some (tgt0, r1) =>
      let tgt := if strContains tgt0 '#' then tgt0 else snd
      match nextTok r1 with
      | none => none
      | some (cmd0, r2) =>
        let cmd := strDrop cmd0 1
        let params := if r2 = "" then none else some r2
        let pd : PrivDispatch := ⟨snd, tgt, cmd, params⟩
        if strTake cmd 1 = "!" then some (pd, PrivAction.botFork (strDrop cmd 1))
        else if strTake cmd 1 = "\x01" then
          if starts_with (strDrop cmd 1) "VERSION" then
            some (pd, PrivAction.ctcpReply
              (send_notice snd ("\x01VERSION " ++ bot_version ++ "\x01")))
          else some (pd, PrivAction.ignored)
        else some (pd, PrivAction.ignored)

/-- Function `irc_kick(server, pdata)` (irc.c lines 292–324).
Truncate the sender at `!` (no `!` drops the message); the first payload
token is the channel the kick happened on, the second is the victim.  When
the victim is our own nick: sleep 4 seconds (anti-flood, no state effect),
find the channel by exact match, overwrite it with the last live entry and
shrink the count (swap-remove, order not preserved), then `join_channel`
that channel again — which re-appends it and sends a JOIN when connected —
and send a message to the channel naming the kicker.
Two defects of the C code at the boundaries, both flagged by the spec (§7,
§9) and unexercised by the claims, are modelled by their effect on the live
prefix: when the channel is not found the copy lands one slot past the live
region and the decrement still discards the last live entry (modelled as
`dropLast`); when additionally the set is empty the count underflows to −1
and the copy reads/writes out of bounds — undefined behavior, modelled as
leaving the state unchanged.  A KICK with no victim token passes NULL to
`streq` in C (a crash); modelled as leaving the state unchanged. -/
def irc_kick (MAXCHANS CHANLEN : Nat) (s : Irc) (sender message : String) :
    Irc × List Cmd :=
  match null_terminate sender '!' with
  | none => (s, [])
  | some kicker =>
    match nextTok message with
    | none => (s, [])
    | some (target, r1) =>
      match nextTok r1 with
      | none => (s, [])
      | some (victim, _) =>
        if victim = s.nick then
          let i := s.channels.findIdx (fun c => c == target)
          let s1 : Irc :=
            if i < s.channels.length then
              { s with channels :=
                  ((s.channels.set i (strTake (s.channels.getLastD "") CHANLEN)).dropLast) }
            else if s.channels.isEmpty then s
            else { s with channels := s.channels.dropLast }
          let r := join_channel MAXCHANS CHANLEN s1 (some target)
          (r.1, r.2.1 ++ [send_message target (kicker ++ " magkas...")])
        else (s, [])

/-- Function `user_is_identified(server, nick)` (irc.c lines 68–80).
Send `ACC <nick>` to NickServ, then `read(server->pipe[0], &auth_level, 4)`
into an `auth_level` initialised to 0.  The pipe carries one atomic 4-byte
write from the NOTICE handler, so the read delivers either the whole value
(`some v`) or nothing (`none`, the failure branch that only logs); in the
latter case `auth_level` keeps its initial 0.  The nick is identified exactly
when the level read equals 3. -/
def user_is_identified (nick : String) (pipeRead : Option Int) : Bool × Cmd :=
  let query := send_message "NickServ" ("ACC " ++ nick)
  let auth_level : Int := match pipeRead with | some v => v | none => 0
  (auth_level == 3, query)

/-- An operation on the connection state, for the reachability invariant:
a `join_channel` call with a channel name, a numeric reply, or an inbound
KICK with its sender and payload. -/
inductive Op where
  | join (ch : String)
  | numeric (reply : Int)
  | kick (sender message : String)
deriving Repr, DecidableEq

/-- The state component of one operation. -/
def step (MAXCHANS CHANLEN : Nat) (s : Irc) : Op → Irc
  | Op.join ch => (join_channel MAXCHANS CHANLEN s (some ch)).1
  | Op.numeric r => (numeric_reply MAXCHANS CHANLEN s r).1
  | Op.kick sender message => (irc_kick MAXCHANS CHANLEN s sender message).1

/-- Run a sequence of operations from a state. -/
def run (MAXCHANS CHANLEN : Nat) (s : Irc) (ops : List Op) : Irc :=
  ops.foldl (step MAXCHANS CHANLEN) s

/-- Iterated nickname-in-use replies: the state after `k` consecutive
NICKNAMEINUSE numeric replies. -/
def iterate_nickreplies (MAXCHANS CHANLEN k : Nat) (s : Irc) : Irc :=
  match k with
  | 0 => s
  | Nat.succ k =>
    iterate_nickreplies MAXCHANS CHANLEN k
      (numeric_reply MAXCHANS CHANLEN s NICKNAMEINUSE).1

/-- The `strcat(server->nick, "_")` of the NICKNAMEINUSE branch writes two
bytes, the underscore at index `strlen(nick)` and the terminator at index
`strlen(nick) + 1`, into the `nick[NICKLEN]` buffer whose valid indices are
`0 … NICKLEN − 1`: it writes past the buffer exactly when
`NICKLEN ≤ strlen(nick) + 1`. -/
def strcatWritesPastNickBuffer (NICKLEN nickLen : Nat) : Prop :=
  NICKLEN ≤ nickLen + 1

/-! ## Theorems -/

/-- C2: every channel recorded by `join_channel` while the connection is not
yet connected produces no JOIN traffic at recording time (only the state
gains the stored name), and processing the end-of-MOTD numeric reply sets the
connected flag and sends exactly one JOIN for each recorded channel, in their
current storage order. -/
theorem C2_deferred_join :
    (∀ (M C : Nat) (s : Irc) (ch : String),
      s.isConnected = false → s.channels.length ≠ M →
      join_channel M C s (some ch) =
        ({ s with channels := s.channels ++ [strTake ch C] }, [], 1))
    ∧ (∀ (M C : Nat) (s : Irc),
      numeric_reply M C s ENDOFMOTD =
        ({ s with isConnected := true }, s.channels.map irc_channel_command)) := by
  constructor
  · intro M C s ch hconn hfull
    simp [join_channel, hfull, hconn]
  · intro M C s
    simp [numeric_reply, NICKNAMEINUSE, ENDOFMOTD, join_channel]

/-- Witness for C2: recording "#a" while disconnected emits nothing, and the
subsequent end-of-MOTD reply joins exactly the recorded channel. -/
theorem C2_deferred_join_witness :
    join_channel 5 40 ⟨"bot", [], false⟩ (some "#a") =
      (⟨"bot", ["#a"], false⟩, [], 1) ∧
    numeric_reply 5 40 ⟨"bot", ["#a"], false⟩ ENDOFMOTD =
      (⟨"bot", ["#a"], true⟩, [irc_channel_command "#a"]) := by
  constructor
  · have h := C2_deferred_join.1 5 40 ⟨"bot", [], false⟩ "#a" rfl (by decide)
    rw [h]; decide
  · have h := C2_deferred_join.2 5 40 ⟨"bot", ["#a"], false⟩
    rw [h]; decide

/-- C3: every complete inbound line beginning with "PING" is answered by
exactly one PONG carrying the same token, with no generic parsing and no
dispatch for that line (the parser returns the PONG as the sole output,
routed nowhere else, so it precedes any other outbound traffic that line
could trigger). -/
theorem C3_ping_pong (line : String) (h : starts_with line "PING" = true) :
    parse_irc_line line =
      ([irc_ping_command (strDrop line 5)], Route.pong (strDrop line 5)) ∧
    (parse_irc_line line).1.map renderCmd =
      ["PONG " ++ strDrop line 5 ++ "\x0d\x0a"] := by
  have hp : parse_irc_line line =
      ([irc_ping_command (strDrop line 5)], Route.pong (strDrop line 5)) := by
    simp [parse_irc_line, h]
  refine ⟨hp, ?_⟩
  rw [hp]
  simp only [List.map, renderCmd, irc_ping_command]
  rw [show ("PONG" ++ " " : String) = "PONG " from rfl]

/-- Witness for C3: the spec example, input "PING :wolfe.example.net" yields
the single wire line "PONG :wolfe.example.net". -/
theorem C3_ping_pong_witness :
    parse_irc_line "PING :wolfe.example.net" =
      ([irc_ping_command ":wolfe.example.net"], Route.pong ":wolfe.example.net") ∧
    (parse_irc_line "PING :wolfe.example.net").1.map renderCmd =
      ["PONG :wolfe.example.net\x0d\x0a"] := by
  obtain ⟨h1, h2⟩ := C3_ping_pong "PING :wolfe.example.net" (by decide)
  constructor
  · rw [h1]; decide
  · rw [h2]; decide

/-- C4: calling `join_channel` with a channel name while the channel set
already holds MAXCHANS entries returns −1, leaves the state (size and
contents) unchanged, and sends no network traffic. -/
theorem C4_capacity (M C : Nat) (s : Irc) (ch : String)
    (h : s.channels.length = M) :
    join_channel M C s (some ch) = (s, [], -1) := by
  simp [join_channel, h]

/-- Witness for C4: with capacity 1 and one recorded channel, a second join
fails and changes nothing. -/
theorem C4_capacity_witness :
    join_channel 1 40 ⟨"bot", ["#a"], true⟩ (some "#b") =
      (⟨"bot", ["#a"], true⟩, [], -1) :=
  C4_capacity 1 40 ⟨"bot", ["#a"], true⟩ "#b" (by decide)

/-- C5: from current nick "bot", one nickname-in-use reply makes the next
NICK registration carry "bot_", and a second reply makes it carry "bot__" —
one underscore appended per reply. -/
theorem C5_nick_collision (M C : Nat) :
    numeric_reply M C ⟨"bot", [], false⟩ NICKNAMEINUSE =
      (⟨"bot_", [], false⟩, [irc_nick_command "bot_"]) ∧
    numeric_reply M C ⟨"bot_", [], false⟩ NICKNAMEINUSE =
      (⟨"bot__", [], false⟩, [irc_nick_command "bot__"]) :=
  ⟨rfl, rfl⟩

/-- C10: `user_is_identified` returns true exactly when the 4-byte value
delivered through the rendezvous pipe equals 3, and returns false when the
read yields no complete value (the zero-initialised level is compared
instead); the NickServ ACC query is sent either way. -/
theorem C10_identified (nick : String) :
    (∀ v : Int, (user_is_identified nick (some v)).1 = true ↔ v = 3) ∧
    (user_is_identified nick none).1 = false ∧
    (∀ r : Option Int, (user_is_identified nick r).2 =
      send_message "NickServ" ("ACC " ++ nick)) := by
  refine ⟨?_, ?_, ?_⟩
  · intro v; simp [user_is_identified]
  · simp [user_is_identified]
  · intro r; simp [user_is_identified]

/-- Counterexample to C1 as stated: with joined channels {"#a","#b","#c"}
and an inbound KICK of our own nick from "#b" (kicker "kicker", capacities
MAXCHANS = 5, CHANLEN = 40), the resulting channel set does not have 2
entries — it has 3, because `irc_kick` removes "#b" and then calls
`join_channel`, which appends it again. -/
theorem C1_counterexample :
    ¬ ((irc_kick 5 40 ⟨"bot", ["#a", "#b", "#c"], true⟩
        "kicker!~k@host" "#b bot :bye").1.channels.length = 2) ∧
    (irc_kick 5 40 ⟨"bot", ["#a", "#b", "#c"], true⟩
        "kicker!~k@host" "#b bot :bye").1.channels.length = 3 := by
  decide

/-- C1 (amended): with joined channels {"#a","#b","#c"} and an inbound KICK
of our own nick from "#b", the handler swap-removes "#b" (leaving
{"#a","#c"}) and then rejoins it, so the final channel set has exactly 3
entries {"#a","#c","#b"} (order not preserved), a JOIN for "#b" is sent, and
a message addressed to the kicker is sent to "#b".  Stated for any
capacities that accommodate the scenario: MAXCHANS other than the
intermediate count 2, and CHANLEN wide enough to store the names intact. -/
theorem C1_kick_rejoin (MAXCHANS CHANLEN : Nat) (hM : MAXCHANS ≠ 2)
    (hb : strTake "#b" CHANLEN = "#b") (hc : strTake "#c" CHANLEN = "#c") :
    irc_kick MAXCHANS CHANLEN ⟨"bot", ["#a", "#b", "#c"], true⟩
        "kicker!~k@host" "#b bot :bye" =
      (⟨"bot", ["#a", "#c", "#b"], true⟩,
       [irc_channel_command "#b", send_message "#b" "kicker magkas..."]) := by
  have h1 : null_terminate "kicker!~k@host" '!' = some "kicker" := by decide
  have h2 : nextTok "#b bot :bye" = some ("#b", "bot :bye") := by decide
  have h3 : nextTok "bot :bye" = some ("bot", ":bye") := by decide
  have h4 : (["#a", "#b", "#c"] : List String).findIdx (fun c => c == "#b") = 1 := by
    decide
  have h5 : (["#a", "#b", "#c"] : List String).getLastD "" = "#c" := by decide
  have h6 : ((["#a", "#b", "#c"] : List String).set 1 "#c").dropLast =
      ["#a", "#c"] := by decide
  have hM2 : ¬ ((2 : Nat) = MAXCHANS) := fun h => hM h.symm
  simp only [irc_kick, h1, h2, h3, h4, h5, hc, h6]
  norm_num [join_channel, hb, hM2]
  rfl

/-- Witness for C1 (amended): the same scenario at concrete capacities
MAXCHANS = 5, CHANLEN = 40. -/
theorem C1_kick_rejoin_witness :
    irc_kick 5 40 ⟨"bot", ["#a", "#b", "#c"], true⟩
        "kicker!~k@host" "#b bot :bye" =
      (⟨"bot", ["#a", "#c", "#b"], true⟩,
       [irc_channel_command "#b", send_message "#b" "kicker magkas..."]) :=
  C1_kick_rejoin 5 40 (by decide) (by decide) (by decide)

/-- Counterexample to C7 as stated: the command token "12abc" does not parse
fully as a positive integer, yet the line ":srv 12abc hello" is routed to
the numeric-reply handler (with code 12), because the code tests the result
of `atoi`, which reads only the leading digit prefix. -/
theorem C7_counterexample :
    (parse_irc_line ":srv 12abc hello").2 = Route.numeric 12 ∧
    parsesFullyAsPosInt "12abc" = false := by
  decide

/-- C7 (amended): for every parsed line that is not a PING and has all three
required tokens, the second token is routed to the numeric-reply handler if
and only if `atoi` of that token is nonzero — that is, its longest leading
(optionally signed, whitespace-stripped) digit prefix has nonzero value,
trailing non-digit characters notwithstanding; otherwise it is looked up as
a server command name. -/
theorem C7_routing (line sender command r1 r2 : String)
    (hp : starts_with line "PING" = false)
    (h1 : nextTok (strDrop line 1) = some (sender, r1))
    (h2 : nextTok r1 = some (command, r2))
    (h3 : ¬ (r2 = "")) :
    parse_irc_line line =
      if atoi command = 0 then ([], Route.lookup sender command r2)
      else ([], Route.numeric (atoi command)) := by
  simp only [parse_irc_line, hp, h1, h2, Bool.false_eq_true, if_false]
  simp [h3]

/-- Witness for C7 (amended): "433" routes to the numeric handler with code
433, and "PRIVMSG" goes to the command lookup. -/
theorem C7_routing_witness :
    parse_irc_line ":srv 433 :hi" = ([], Route.numeric 433) ∧
    parse_irc_line ":srv PRIVMSG #c :hi" =
      ([], Route.lookup "srv" "PRIVMSG" "#c :hi") := by
  constructor
  · have h := C7_routing ":srv 433 :hi" "srv" "433" "433 :hi" ":hi"
      (by decide) (by decide) (by decide) (by decide)
    rw [h]; decide
  · have h := C7_routing ":srv PRIVMSG #c :hi" "srv" "PRIVMSG" "PRIVMSG #c :hi"
      "#c :hi" (by decide) (by decide) (by decide) (by decide)
    rw [h]; decide

/-- C8: for every PRIVMSG that is dispatched, the sender is truncated at the
first exclamation mark (keeping only the nick), and the reply target is the
first payload token when that token contains a hash character, otherwise the
reply target becomes the sender. -/
theorem C8_reply_target (sender snd message tgt0 r1 cmd0 r2 v : String)
    (hs : null_terminate sender '!' = some snd)
    (h1 : nextTok message = some (tgt0, r1))
    (h2 : nextTok r1 = some (cmd0, r2)) :
    ∃ pd act, irc_privmsg sender message v = some (pd, act) ∧
      pd.sender = snd ∧
      pd.target = (if strContains tgt0 '#' then tgt0 else snd) := by
  simp only [irc_privmsg, hs, h1, h2]
  split
  · exact ⟨_, _, rfl, rfl, rfl⟩
  · split
    · split
      · exact ⟨_, _, rfl, rfl, rfl⟩
      · exact ⟨_, _, rfl, rfl, rfl⟩
    · exact ⟨_, _, rfl, rfl, rfl⟩

/-- Witness for C8: the spec example "PRIVMSG bot :!ping 8.8.8.8" — a
private message whose target token "bot" has no hash — resolves both the
sender and the reply target to the sending nick "john", not to the literal
target token. -/
theorem C8_reply_target_witness :
    ∃ pd act, irc_privmsg "john!~u@h" "bot :!ping 8.8.8.8" "v1" =
        some (pd, act) ∧
      pd.sender = "john" ∧ pd.target = "john" := by
  obtain ⟨pd, act, he, hsd, ht⟩ :=
    C8_reply_target "john!~u@h" "john" "bot :!ping 8.8.8.8" "bot"
      ":!ping 8.8.8.8" ":!ping" "8.8.8.8" "v1" (by decide) (by decide) (by decide)
  refine ⟨pd, act, he, hsd, ?_⟩
  rw [ht]; decide

/-- Each nickname-in-use reply grows the stored nick by exactly one
character: after `k` such replies the nick is `k` characters longer. -/
theorem iterate_nickreplies_nick_length (M C k : Nat) (s : Irc) :
    (iterate_nickreplies M C k s).nick.length = s.nick.length + k := by
  induction k generalizing s with
  | zero => simp [iterate_nickreplies]
  | succ k ih =>
    have hone : (numeric_reply M C s NICKNAMEINUSE).1 =
        { s with nick := s.nick ++ "_" } := rfl
    have hu : ("_" : String).length = 1 := rfl
    simp only [iterate_nickreplies, hone, ih, String.length_append, hu]
    omega

/-- C6: the claim that no operation writes past the end of the nick buffer
is right as a specification but wrong of the code: the nickname-in-use
branch of `numeric_reply` appends with an unbounded `strcat`, so for every
buffer size NICKLEN there is a number of replies (NICKLEN suffices, starting
from nick "bot") after which the nick has grown to fill the buffer and the
`strcat` of the next reply writes at indices at or past NICKLEN, outside
`nick[NICKLEN]`.  (The `strncpy` paths — `set_nick` with an external
argument and the channel-name stores of `join_channel` — do truncate; only
this `strcat` violates the claim.) -/
theorem C6_nick_buffer_overflow (NICKLEN M C : Nat) :
    ∃ k : Nat, strcatWritesPastNickBuffer NICKLEN
      ((iterate_nickreplies M C k ⟨"bot", [], false⟩).nick.length) := by
  refine ⟨NICKLEN, ?_⟩
  rw [iterate_nickreplies_nick_length]
  simp only [strcatWritesPastNickBuffer]
  have hb : (Irc.mk "bot" [] false).nick.length = 3 := rfl
  rw [hb]
  omega

/-- The state component of `join_channel` never grows the channel set past
MAXCHANS: a set within the bound stays within it. -/
theorem join_channel_fst_length_le (M C : Nat) (s : Irc) (ch : Option String)
    (h : s.channels.length ≤ M) :
    (join_channel M C s ch).1.channels.length ≤ M := by
  unfold join_channel
  split
  · split
    · exact h
    · rename_i hne
      show (s.channels ++ [_]).length ≤ M
      rw [List.length_append]
      simp only [List.length_cons, List.length_nil]
      omega
  · split <;> exact h

/-- The state component of `numeric_reply` keeps the channel-set size within
the bound. -/
theorem numeric_reply_fst_length_le (M C : Nat) (s : Irc) (r : Int)
    (h : s.channels.length ≤ M) :
    (numeric_reply M C s r).1.channels.length ≤ M := by
  unfold numeric_reply
  split
  · exact h
  · split
    · exact join_channel_fst_length_le M C _ none h
    · exact h

/-- The state component of `irc_kick` keeps the channel-set size within the
bound: removal shrinks the set and the rejoin passes through the guarded
`join_channel`. -/
theorem irc_kick_fst_length_le (M C : Nat) (s : Irc) (sender message : String)
    (h : s.channels.length ≤ M) :
    (irc_kick M C s sender message).1.channels.length ≤ M := by
  unfold irc_kick
  split
  · exact h
  · split
    · exact h
    · split
      · exact h
      · split
        · apply join_channel_fst_length_le
          split
          · show ((s.channels.set _ _).dropLast).length ≤ M
            rw [List.length_dropLast, List.length_set]
            omega
          · split
            · exact h
            · show (s.channels.dropLast).length ≤ M
              rw [List.length_dropLast]
              omega
        · exact h

/-- One operation preserves the channel-set bound. -/
theorem step_fst_length_le (M C : Nat) (s : Irc) (op : Op)
    (h : s.channels.length ≤ M) : (step M C s op).channels.length ≤ M := by
  cases op with
  | join ch => exact join_channel_fst_length_le M C s (some ch) h
  | numeric r => exact numeric_reply_fst_length_le M C s r h
  | kick sender message => exact irc_kick_fst_length_le M C s sender message h

/-- A whole operation sequence preserves the channel-set bound. -/
theorem run_fst_length_le (M C : Nat) (ops : List Op) (s : Irc)
    (h : s.channels.length ≤ M) : (run M C s ops).channels.length ≤ M := by
  induction ops generalizing s with
  | nil => simpa [run] using h
  | cons op ops ih => exact ih _ (step_fst_length_le M C s op h)

/-- C9: the channel-set size never exceeds MAXCHANS — starting from an empty
set, every state reachable under any sequence of join, numeric-reply, and
kick operations has at most MAXCHANS recorded channels. -/
theorem C9_channel_capacity (M C : Nat) (nick : String) (b : Bool)
    (ops : List Op) :
    (run M C ⟨nick, [], b⟩ ops).channels.length ≤ M :=
  run_fst_length_le M C ops ⟨nick, [], b⟩ (by simp)

end IrcBot
